import Mathlib

/-!
# Verification of the PDF writer (`mvz/pdf.go`)

Shallow embedding of the single-pass PDF writer.  The Go type `PDFWriter`
holds an `io.Writer` sink, a byte-offset cursor, the object-offset table,
the page list, a mutable error field and the id of the metadata object.
The sink is modelled functionally: a `Sink` maps the index of a `Write`
call and the requested byte count to the number of bytes the sink accepts
and the error it returns (`none` = nil).  Bytes are modelled as naturals
(all strings the writer emits are ASCII, where Go's byte count coincides
with the character count); `out` accumulates the bytes the sink actually
accepted, and `widx` counts the `Write` calls made so far.

Go's `Length` is `float64`; it is modelled as `ℚ`.  Every numeric value a
claim reasons about (`1500/150*72 = 720`, `1050/150*72 = 504`, integer
point sizes) is exactly representable in `float64` and computed there
without rounding, so the rational model agrees with the float computation
on all claim-relevant inputs.
-/

/-- Result of one sink `Write` call: accepted byte count and returned error
(`none` models a nil error, `some e` an error value). -/
structure WriteRes where
  n : ℕ
  err : Option ℕ
deriving Repr, DecidableEq

/-- A sink behaviour: for the `i`-th `Write` call requesting `k` bytes,
the result the sink returns.  This models the `io.Writer` field `w`. -/
def Sink : Type := ℕ → ℕ → WriteRes

/-- A sink on which no write fails: every call accepts all requested bytes
and returns a nil error. -/
def NoFail (sink : Sink) : Prop := ∀ i k, sink i k = ⟨k, none⟩

/-- The always-succeeding sink. -/
def okSink : Sink := fun _ k => ⟨k, none⟩

/-- State of the Go `PDFWriter` struct: cursor `offset`, object-offset
table `objects`, page list `pages`, sticky-candidate error field `err`,
metadata object id `infoId`; plus the observables of the sink:
`out` (bytes the sink accepted so far) and `widx` (number of `Write`
calls made so far). -/
structure PDFWriter where
  offset : ℕ
  objects : List ℕ
  pages : List ℕ
  err : Option ℕ
  infoId : ℕ
  out : List ℕ
  widx : ℕ
deriving Repr, DecidableEq

/-- Bytes of an ASCII string (Go `[]byte(s)`). -/
def strBytes (s : String) : List ℕ := s.data.map Char.toNat

/-- One call of the sink's `Write` with `data`: the accepted prefix goes to
`out` (capped at the request length, per the `io.Writer` contract), the
call counter advances; returns the new state, the accepted count and the
error. -/
def sinkWrite (sink : Sink) (s : PDFWriter) (data : List ℕ) :
    PDFWriter × ℕ × Option ℕ :=
  let r := sink s.widx data.length
  let n := min r.n data.length
  (⟨s.offset, s.objects, s.pages, s.err, s.infoId, s.out ++ data.take n,
    s.widx + 1⟩, n, r.err)

/-- `func (p *PDFWriter) print(s string) error`: write the string, add the
accepted count to the cursor; on error set `p.err` and return early;
otherwise write the newline, assign its error to `p.err` (overwriting any
previous value) and increment the cursor by one regardless of how many of
the newline's bytes were accepted. -/
def print (sink : Sink) (s : PDFWriter) (str : String) : PDFWriter :=
  let t := sinkWrite sink s (strBytes str)
  let s1 := t.1
  let n := t.2.1
  let s1 : PDFWriter :=
    ⟨s1.offset + n, s1.objects, s1.pages, s1.err, s1.infoId, s1.out, s1.widx⟩
  match t.2.2 with
  | some er =>
      ⟨s1.offset, s1.objects, s1.pages, some er, s1.infoId, s1.out, s1.widx⟩
  | none =>
      let t2 := sinkWrite sink s1 [10]
      ⟨t2.1.offset + 1, t2.1.objects, t2.1.pages, t2.2.2, t2.1.infoId,
       t2.1.out, t2.1.widx⟩

/-- `func (p *PDFWriter) printf(format string, args ...)`: `fmt.Fprintf`
issues a single `Write` of the formatted bytes and then the newline is
written exactly as in `print`; formatting is done at the call sites
(`Nat.repr`, `fmtF2`, `pad10`), so the write/offset/error behaviour is
that of `print` on the formatted string. -/
def printf (sink : Sink) (s : PDFWriter) (str : String) : PDFWriter :=
  print sink s str

/-- Go `%d` of the (always nonnegative) integers this writer prints. -/
def fmtInt (n : ℕ) : String := Nat.repr n

/-- Go `%010d`: decimal representation left-padded with zeros to width 10. -/
def pad10 (n : ℕ) : String :=
  let d := Nat.repr n
  String.mk (List.replicate (10 - d.length) '0') ++ d

/-- Go `%.2f` for the nonnegative finite values this writer prints:
round to two decimals (half away from zero) and print with exactly two
fractional digits.  On every value a claim mentions the underlying
`float64` computation is exact, so no rounding is involved there. -/
def fmtF2 (q : ℚ) : String :=
  let n100 := (q * 100).num.toNat
  let d100 := (q * 100).den
  let c := (2 * n100 + d100) / (2 * d100)
  fmtInt (c / 100) ++ "." ++ (if c % 100 < 10 then "0" else "") ++ fmtInt (c % 100)

/-- `func NewPDFWriter(w io.Writer) (*PDFWriter, error)`: fresh state,
then `p.print("%PDF-1.3")`, returning the writer and `p.err`. -/
def NewPDFWriter (sink : Sink) : PDFWriter × Option ℕ :=
  let s := print sink ⟨0, [], [], none, 0, [], 0⟩ "%PDF-1.3"
  (s, s.err)

/-- The writer state right after `NewPDFWriter`. -/
def initPDF (sink : Sink) : PDFWriter := (NewPDFWriter sink).1

/-- `func (p *PDFWriter) startObj() (PDFID, error)`: append the cursor to
the object table, the new object's id is the table's new length (1-based),
then emit the header line `"<id> 0 obj"` and the opening `<<`. -/
def startObj (sink : Sink) (s : PDFWriter) : PDFWriter × ℕ :=
  let objects := s.objects ++ [s.offset]
  let id := objects.length
  let s1 : PDFWriter :=
    ⟨s.offset, objects, s.pages, s.err, s.infoId, s.out, s.widx⟩
  let s2 := printf sink s1 (fmtInt id ++ " 0 obj")
  (print sink s2 "<<", id)

/-- `func (p *PDFWriter) endObj() error`: emit `>>` and `endobj`. -/
def endObj (sink : Sink) (s : PDFWriter) : PDFWriter :=
  print sink (print sink s ">>") "endobj"

/-- `func (p *PDFWriter) writeStream(data []byte)`: the `stream` keyword
line, one raw `Write` of the payload (accepted count added to the cursor,
its error assigned to `p.err` unconditionally), then the `endstream`
keyword line. -/
def writeStream (sink : Sink) (s : PDFWriter) (data : List ℕ) : PDFWriter :=
  let s1 := print sink s "stream"
  let t := sinkWrite sink s1 data
  let s2 : PDFWriter :=
    ⟨t.1.offset + t.2.1, t.1.objects, t.1.pages, t.2.2, t.1.infoId,
     t.1.out, t.1.widx⟩
  print sink s2 "endstream"

/-- `func (p *PDFWriter) writeStreamObject(data []byte) (PDFID, error)`. -/
def writeStreamObject (sink : Sink) (s : PDFWriter) (data : List ℕ) :
    PDFWriter × ℕ :=
  let t := startObj sink s
  let s1 := printf sink t.1 ("/Length " ++ fmtInt data.length)
  let s1 := print sink s1 ">>"
  let s1 := writeStream sink s1 data
  (endObj sink s1, t.2)

/-- `func (p *PDFWriter) writeImage(w, h int, data []byte) (PDFID, error)`. -/
def writeImage (sink : Sink) (s : PDFWriter) (wpx hpx : ℕ)
    (data : List ℕ) : PDFWriter × ℕ :=
  let t := startObj sink s
  let s1 := print sink t.1 "/Type /XObject"
  let s1 := print sink s1 "/Subtype /Image"
  let s1 := print sink s1 "/Name /I"
  let s1 := print sink s1 "/Filter [ /DCTDecode ]"
  let s1 := printf sink s1 ("/Width " ++ fmtInt wpx)
  let s1 := printf sink s1 ("/Height " ++ fmtInt hpx)
  let s1 := print sink s1 "/ColorSpace /DeviceRGB"
  let s1 := print sink s1 "/BitsPerComponent 8"
  let s1 := printf sink s1 ("/Length " ++ fmtInt data.length)
  let s1 := print sink s1 ">>"
  let s1 := writeStream sink s1 data
  (endObj sink s1, t.2)

/-- `func (p *PDFWriter) WriteInfo(title string, mtime time.Time) error`:
the timestamp is passed already formatted (`mtime.Format("20060102150405")`),
since nothing here depends on the date formatting itself. -/
def WriteInfo (sink : Sink) (s : PDFWriter) (title mtimeStr : String) :
    PDFWriter :=
  let t := startObj sink s
  let s1 : PDFWriter :=
    ⟨t.1.offset, t.1.objects, t.1.pages, t.1.err, t.2, t.1.out, t.1.widx⟩
  let s1 := printf sink s1 ("/Title (" ++ title ++ ")")
  let s1 := printf sink s1 ("/CreationDate (D:" ++ mtimeStr ++ ")")
  let s1 := printf sink s1 ("/ModDate (D:" ++ mtimeStr ++ ")")
  let s1 := print sink s1 "/Producer (mvztopdf 1.0)"
  endObj sink s1

/-- `func (p *PDFWriter) WritePage(x, y Length, data []byte) (PDFID, error)`:
the `none` result models the `panic("internal error: streamId != id+1")`
branch. -/
def WritePage (sink : Sink) (s : PDFWriter) (x y : ℚ) (data : List ℕ) :
    Option (PDFWriter × ℕ) :=
  let t := startObj sink s
  let id := t.2
  let s1 := print sink t.1 "/Type /Page"
  let s1 := printf sink s1 ("/MediaBox [0 0 " ++ fmtF2 x ++ " " ++ fmtF2 y ++ "]")
  let s1 := printf sink s1 ("/CropBox [0 0 " ++ fmtF2 x ++ " " ++ fmtF2 y ++ "]")
  let s1 := printf sink s1 ("/Contents " ++ fmtInt (id + 1) ++ " 0 R")
  let s1 := endObj sink s1
  let t2 := writeStreamObject sink s1 data
  if t2.1.err = none ∧ t2.2 ≠ id + 1 then none
  else some (⟨t2.1.offset, t2.1.objects, t2.1.pages ++ [id], t2.1.err,
              t2.1.infoId, t2.1.out, t2.1.widx⟩, id)

/-- `func (p *PDFWriter) WriteJPEGPage(img image.Image, data []byte)`:
the image is passed by its pixel dimensions `dx × dy`
(`img.Bounds().Dx()/Dy()`); the two `none` results model the two
`panic("internal error: ...")` branches. -/
def WriteJPEGPage (sink : Sink) (s : PDFWriter) (dx dy : ℕ)
    (data : List ℕ) : Option (PDFWriter × ℕ) :=
  let x : ℚ := (dx : ℚ) / 150 * 72
  let y : ℚ := (dy : ℚ) / 150 * 72
  let t := startObj sink s
  let id := t.2
  let s1 := print sink t.1 "/Type /Page"
  let s1 := printf sink s1 ("/MediaBox [0 0 " ++ fmtF2 x ++ " " ++ fmtF2 y ++ "]")
  let s1 := printf sink s1 ("/CropBox [0 0 " ++ fmtF2 x ++ " " ++ fmtF2 y ++ "]")
  let s1 := printf sink s1 ("/Contents " ++ fmtInt (id + 1) ++ " 0 R")
  let s1 := printf sink s1 ("/Resources << /XObject << /I " ++ fmtInt (id + 2) ++ " 0 R >> >>")
  let s1 := endObj sink s1
  let content := strBytes ("q\n" ++ fmtF2 x ++ " 0 0 " ++ fmtF2 y ++ " 0 0 cm\n" ++ "/I Do\n" ++ "Q\n")
  let t2 := writeStreamObject sink s1 content
  if t2.1.err = none ∧ t2.2 ≠ id + 1 then none
  else
    let t3 := writeImage sink t2.1 dx dy data
    if t3.1.err = none ∧ t3.2 ≠ id + 2 then none
    else some (⟨t3.1.offset, t3.1.objects, t3.1.pages ++ [id], t3.1.err,
                t3.1.infoId, t3.1.out, t3.1.widx⟩, id)

/-- The `/Kids` array body built in `Flush`: `fmt.Fprintf(buf, "%d 0 R ", page)`
for each page, in order. -/
def kidsStr (pgs : List ℕ) : String :=
  String.join (pgs.map (fun pg => fmtInt pg ++ " 0 R "))

/-- `func (p *PDFWriter) Flush() error`: pages tree, early return on a
recorded error, catalog, cross-reference table, trailer; returns `p.err`. -/
def Flush (sink : Sink) (s : PDFWriter) : PDFWriter × Option ℕ :=
  let tp := startObj sink s
  let pagesId := tp.2
  let s1 := print sink tp.1 "/Type /Pages"
  let s1 := printf sink s1 ("/Kids [ " ++ kidsStr s1.pages ++ "]")
  let s1 := printf sink s1 ("/Count " ++ fmtInt s1.pages.length)
  let s1 := endObj sink s1
  if s1.err.isSome then (s1, s1.err)
  else
    let tr := startObj sink s1
    let rootId := tr.2
    let s2 := print sink tr.1 "/Type /Catalog"
    let s2 := printf sink s2 ("/Pages " ++ fmtInt pagesId ++ " 0 R")
    let s2 := endObj sink s2
    let xrefOff := s2.offset
    let s2 := print sink s2 "xref"
    let s2 := printf sink s2 ("0 " ++ fmtInt (s2.objects.length + 1))
    let s2 := print sink s2 "0000000000 65535 f"
    let s2 := s2.objects.foldl
      (fun acc off => printf sink acc (pad10 off ++ " 00000 n")) s2
    let s2 := print sink s2 "trailer"
    let s2 := print sink s2 "<<"
    let s2 := printf sink s2 ("/Size " ++ fmtInt (s2.objects.length + 1))
    let s2 := printf sink s2 ("/Info " ++ fmtInt s2.infoId ++ " 0 R")
    let s2 := printf sink s2 ("/Root " ++ fmtInt rootId ++ " 0 R")
    let s2 := printf sink s2 "/ID [<deadbeef> <deadbeef>]"
    let s2 := print sink s2 ">>"
    let s2 := print sink s2 "startxref"
    let s2 := printf sink s2 (fmtInt xrefOff)
    let s2 := print sink s2 "%%EOF"
    (s2, s2.err)

/-- One public page-producing or metadata call of the writer's API. -/
inductive Op where
  | info (title mtimeStr : String)
  | page (x y : ℚ) (data : List ℕ)
  | jpegPage (dx dy : ℕ) (data : List ℕ)

/-- Apply one API call; `none` models a panic. -/
def applyOp (sink : Sink) (s : PDFWriter) : Op → Option PDFWriter
  | .info t m => some (WriteInfo sink s t m)
  | .page x y d => (WritePage sink s x y d).map Prod.fst
  | .jpegPage dx dy d => (WriteJPEGPage sink s dx dy d).map Prod.fst

/-- Run a sequence of API calls. -/
def runOps (sink : Sink) : PDFWriter → List Op → Option PDFWriter
  | s, [] => some s
  | s, op :: ops =>
      match applyOp sink s op with
      | none => none
      | some s' => runOps sink s' ops

/-- A whole document lifetime: `NewPDFWriter`, the calls, then `Flush`. -/
def runDoc (sink : Sink) (ops : List Op) : Option (PDFWriter × Option ℕ) :=
  (runOps sink (initPDF sink) ops).map (Flush sink)

/-! ## Emitted byte sequences

Derived descriptions of the byte sequences the primitives append to the
sink on an error-free execution; each is proved equal to what the
corresponding function emits. -/

/-- Bytes one successful `print`/`printf` call appends: the string then a
newline. -/
def emitPrint (str : String) : List ℕ := strBytes str ++ [10]

/-- Bytes a successful `startObj` appends: header line and opening `<<`. -/
def emitObjHeader (id : ℕ) : List ℕ :=
  emitPrint (fmtInt id ++ " 0 obj") ++ emitPrint "<<"

/-- Bytes a successful `endObj` appends. -/
def emitEndObj : List ℕ := emitPrint ">>" ++ emitPrint "endobj"

/-- Bytes of the pages-tree object `Flush` emits. -/
def pagesObjBytes (id : ℕ) (pgs : List ℕ) : List ℕ :=
  emitObjHeader id ++ emitPrint "/Type /Pages"
    ++ emitPrint ("/Kids [ " ++ kidsStr pgs ++ "]")
    ++ emitPrint ("/Count " ++ fmtInt pgs.length) ++ emitEndObj

/-- Bytes of the catalog object `Flush` emits. -/
def catalogBytes (id pagesId : ℕ) : List ℕ :=
  emitObjHeader id ++ emitPrint "/Type /Catalog"
    ++ emitPrint ("/Pages " ++ fmtInt pagesId ++ " 0 R") ++ emitEndObj

/-- One in-use cross-reference entry, as emitted by
`p.printf("%010d 00000 n", off)`: 18 characters plus one newline byte. -/
def xrefEntry (off : ℕ) : List ℕ := emitPrint (pad10 off ++ " 00000 n")

/-- Bytes of the whole cross-reference section `Flush` emits for the
object table `objs`. -/
def xrefBytes (objs : List ℕ) : List ℕ :=
  emitPrint "xref" ++ emitPrint ("0 " ++ fmtInt (objs.length + 1))
    ++ emitPrint "0000000000 65535 f" ++ (objs.map xrefEntry).flatten

/-- Bytes of the trailer `Flush` emits. -/
def trailerBytes (size infoId rootId xrefOff : ℕ) : List ℕ :=
  emitPrint "trailer" ++ emitPrint "<<"
    ++ emitPrint ("/Size " ++ fmtInt size)
    ++ emitPrint ("/Info " ++ fmtInt infoId ++ " 0 R")
    ++ emitPrint ("/Root " ++ fmtInt rootId ++ " 0 R")
    ++ emitPrint "/ID [<deadbeef> <deadbeef>]" ++ emitPrint ">>"
    ++ emitPrint "startxref" ++ emitPrint (fmtInt xrefOff)
    ++ emitPrint "%%EOF"

/-! ## Characterization of the primitives on a no-failure sink -/

theorem print_ok (sink : Sink) (hs : NoFail sink) (o : ℕ) (objs pgs : List ℕ)
    (e : Option ℕ) (info : ℕ) (out : List ℕ) (w : ℕ) (str : String) :
    print sink ⟨o, objs, pgs, e, info, out, w⟩ str
      = ⟨o + (emitPrint str).length, objs, pgs, none, info,
         out ++ emitPrint str, w + 2⟩ := by
  have hsu : ∀ i k, sink i k = ⟨k, none⟩ := hs
  simp [print, sinkWrite, hsu, emitPrint]
  omega

theorem printf_ok (sink : Sink) (hs : NoFail sink) (o : ℕ) (objs pgs : List ℕ)
    (e : Option ℕ) (info : ℕ) (out : List ℕ) (w : ℕ) (str : String) :
    printf sink ⟨o, objs, pgs, e, info, out, w⟩ str
      = ⟨o + (emitPrint str).length, objs, pgs, none, info,
         out ++ emitPrint str, w + 2⟩ := by
  rw [printf, print_ok sink hs]

theorem startObj_ok (sink : Sink) (hs : NoFail sink) (o : ℕ)
    (objs pgs : List ℕ) (e : Option ℕ) (info : ℕ) (out : List ℕ) (w : ℕ) :
    startObj sink ⟨o, objs, pgs, e, info, out, w⟩
      = (⟨o + (emitObjHeader (objs.length + 1)).length, objs ++ [o], pgs,
          none, info, out ++ emitObjHeader (objs.length + 1), w + 4⟩,
         objs.length + 1) := by
  simp only [startObj, List.length_append, List.length_cons,
    List.length_nil, Nat.zero_add, printf_ok sink hs, print_ok sink hs,
    emitObjHeader]
  simp [Prod.ext_iff, List.append_assoc]
  omega

theorem endObj_ok (sink : Sink) (hs : NoFail sink) (o : ℕ)
    (objs pgs : List ℕ) (e : Option ℕ) (info : ℕ) (out : List ℕ) (w : ℕ) :
    endObj sink ⟨o, objs, pgs, e, info, out, w⟩
      = ⟨o + emitEndObj.length, objs, pgs, none, info,
         out ++ emitEndObj, w + 4⟩ := by
  simp only [endObj, print_ok sink hs, emitEndObj]
  simp [List.append_assoc]
  omega

/-- Bytes a successful `writeStream` appends: the `stream` keyword line,
the raw payload, the `endstream` keyword line — a newline after `stream`
and none between the payload and `endstream`. -/
def emitStream (data : List ℕ) : List ℕ :=
  emitPrint "stream" ++ data ++ emitPrint "endstream"

theorem writeStream_ok (sink : Sink) (hs : NoFail sink) (o : ℕ)
    (objs pgs : List ℕ) (e : Option ℕ) (info : ℕ) (out : List ℕ) (w : ℕ)
    (data : List ℕ) :
    writeStream sink ⟨o, objs, pgs, e, info, out, w⟩ data
      = ⟨o + (emitStream data).length, objs, pgs, none, info,
         out ++ emitStream data, w + 5⟩ := by
  have hsu : ∀ i k, sink i k = ⟨k, none⟩ := hs
  simp only [writeStream, print_ok sink hs, sinkWrite, hsu, emitStream]
  simp [List.append_assoc]
  omega

/-! ## Field-preservation and cursor-monotonicity on an arbitrary sink -/

theorem print_objects (sink : Sink) (s : PDFWriter) (str : String) :
    (print sink s str).objects = s.objects := by
  simp only [print, sinkWrite]
  split <;> rfl

theorem print_pages (sink : Sink) (s : PDFWriter) (str : String) :
    (print sink s str).pages = s.pages := by
  simp only [print, sinkWrite]
  split <;> rfl

theorem print_infoId (sink : Sink) (s : PDFWriter) (str : String) :
    (print sink s str).infoId = s.infoId := by
  simp only [print, sinkWrite]
  split <;> rfl

theorem print_offset_le (sink : Sink) (s : PDFWriter) (str : String) :
    s.offset ≤ (print sink s str).offset := by
  simp only [print, sinkWrite]
  split <;> dsimp only <;> omega

theorem printf_objects (sink : Sink) (s : PDFWriter) (str : String) :
    (printf sink s str).objects = s.objects := print_objects sink s str

theorem printf_pages (sink : Sink) (s : PDFWriter) (str : String) :
    (printf sink s str).pages = s.pages := print_pages sink s str

theorem printf_infoId (sink : Sink) (s : PDFWriter) (str : String) :
    (printf sink s str).infoId = s.infoId := print_infoId sink s str

theorem printf_offset_le (sink : Sink) (s : PDFWriter) (str : String) :
    s.offset ≤ (printf sink s str).offset := print_offset_le sink s str

theorem writeStream_objects (sink : Sink) (s : PDFWriter) (data : List ℕ) :
    (writeStream sink s data).objects = s.objects := by
  simp only [writeStream, print_objects]
  exact print_objects sink s "stream"

theorem writeStream_pages (sink : Sink) (s : PDFWriter) (data : List ℕ) :
    (writeStream sink s data).pages = s.pages := by
  simp only [writeStream, print_pages]
  exact print_pages sink s "stream"

theorem writeStream_infoId (sink : Sink) (s : PDFWriter) (data : List ℕ) :
    (writeStream sink s data).infoId = s.infoId := by
  simp only [writeStream, print_infoId]
  exact print_infoId sink s "stream"

theorem sinkWrite_offset (sink : Sink) (s : PDFWriter) (data : List ℕ) :
    (sinkWrite sink s data).1.offset = s.offset := rfl

theorem writeStream_offset_le (sink : Sink) (s : PDFWriter) (data : List ℕ) :
    s.offset ≤ (writeStream sink s data).offset := by
  simp only [writeStream]
  refine le_trans ?_ (print_offset_le sink _ "endstream")
  dsimp only
  rw [sinkWrite_offset]
  have := print_offset_le sink s "stream"
  omega

theorem startObj_objects (sink : Sink) (s : PDFWriter) :
    (startObj sink s).1.objects = s.objects ++ [s.offset] := by
  simp only [startObj, printf_objects, print_objects]

theorem startObj_snd (sink : Sink) (s : PDFWriter) :
    (startObj sink s).2 = s.objects.length + 1 := by
  simp only [startObj]
  simp

theorem startObj_pages (sink : Sink) (s : PDFWriter) :
    (startObj sink s).1.pages = s.pages := by
  simp only [startObj, printf_pages, print_pages]

theorem startObj_infoId (sink : Sink) (s : PDFWriter) :
    (startObj sink s).1.infoId = s.infoId := by
  simp only [startObj, printf_infoId, print_infoId]

theorem startObj_offset_le (sink : Sink) (s : PDFWriter) :
    s.offset ≤ (startObj sink s).1.offset := by
  simp only [startObj]
  exact le_trans
    (printf_offset_le sink
      ⟨s.offset, s.objects ++ [s.offset], s.pages, s.err, s.infoId, s.out, s.widx⟩
      (fmtInt (s.objects ++ [s.offset]).length ++ " 0 obj"))
    (print_offset_le sink _ "<<")

theorem endObj_objects (sink : Sink) (s : PDFWriter) :
    (endObj sink s).objects = s.objects := by
  simp only [endObj, print_objects]

theorem endObj_pages (sink : Sink) (s : PDFWriter) :
    (endObj sink s).pages = s.pages := by
  simp only [endObj, print_pages]

theorem endObj_infoId (sink : Sink) (s : PDFWriter) :
    (endObj sink s).infoId = s.infoId := by
  simp only [endObj, print_infoId]

theorem endObj_offset_le (sink : Sink) (s : PDFWriter) :
    s.offset ≤ (endObj sink s).offset := by
  simp only [endObj]
  exact le_trans (print_offset_le sink s ">>") (print_offset_le sink _ "endobj")

theorem writeStreamObject_objects (sink : Sink) (s : PDFWriter) (data : List ℕ) :
    (writeStreamObject sink s data).1.objects = s.objects ++ [s.offset] := by
  simp only [writeStreamObject, endObj_objects, writeStream_objects,
    print_objects, printf_objects, startObj_objects]

theorem writeStreamObject_snd (sink : Sink) (s : PDFWriter) (data : List ℕ) :
    (writeStreamObject sink s data).2 = s.objects.length + 1 := by
  simp only [writeStreamObject, startObj_snd]

theorem writeStreamObject_pages (sink : Sink) (s : PDFWriter) (data : List ℕ) :
    (writeStreamObject sink s data).1.pages = s.pages := by
  simp only [writeStreamObject, endObj_pages, writeStream_pages,
    print_pages, printf_pages, startObj_pages]

theorem writeStreamObject_infoId (sink : Sink) (s : PDFWriter) (data : List ℕ) :
    (writeStreamObject sink s data).1.infoId = s.infoId := by
  simp only [writeStreamObject, endObj_infoId, writeStream_infoId,
    print_infoId, printf_infoId, startObj_infoId]

theorem writeStreamObject_offset_le (sink : Sink) (s : PDFWriter) (data : List ℕ) :
    s.offset ≤ (writeStreamObject sink s data).1.offset := by
  simp only [writeStreamObject]
  exact le_trans (startObj_offset_le sink s)
    (le_trans (printf_offset_le sink _ _)
      (le_trans (print_offset_le sink _ ">>")
        (le_trans (writeStream_offset_le sink _ data) (endObj_offset_le sink _))))

theorem writeImage_objects (sink : Sink) (s : PDFWriter) (wpx hpx : ℕ)
    (data : List ℕ) :
    (writeImage sink s wpx hpx data).1.objects = s.objects ++ [s.offset] := by
  simp only [writeImage, endObj_objects, writeStream_objects,
    print_objects, printf_objects, startObj_objects]

theorem writeImage_snd (sink : Sink) (s : PDFWriter) (wpx hpx : ℕ)
    (data : List ℕ) :
    (writeImage sink s wpx hpx data).2 = s.objects.length + 1 := by
  simp only [writeImage, startObj_snd]

theorem writeImage_pages (sink : Sink) (s : PDFWriter) (wpx hpx : ℕ)
    (data : List ℕ) :
    (writeImage sink s wpx hpx data).1.pages = s.pages := by
  simp only [writeImage, endObj_pages, writeStream_pages,
    print_pages, printf_pages, startObj_pages]

theorem writeImage_infoId (sink : Sink) (s : PDFWriter) (wpx hpx : ℕ)
    (data : List ℕ) :
    (writeImage sink s wpx hpx data).1.infoId = s.infoId := by
  simp only [writeImage, endObj_infoId, writeStream_infoId,
    print_infoId, printf_infoId, startObj_infoId]

theorem writeImage_offset_le (sink : Sink) (s : PDFWriter) (wpx hpx : ℕ)
    (data : List ℕ) :
    s.offset ≤ (writeImage sink s wpx hpx data).1.offset := by
  simp only [writeImage]
  refine le_trans (startObj_offset_le sink s) ?_
  refine le_trans (print_offset_le sink _ "/Type /XObject") ?_
  refine le_trans (print_offset_le sink _ "/Subtype /Image") ?_
  refine le_trans (print_offset_le sink _ "/Name /I") ?_
  refine le_trans (print_offset_le sink _ "/Filter [ /DCTDecode ]") ?_
  refine le_trans (printf_offset_le sink _ ("/Width " ++ fmtInt wpx)) ?_
  refine le_trans (printf_offset_le sink _ ("/Height " ++ fmtInt hpx)) ?_
  refine le_trans (print_offset_le sink _ "/ColorSpace /DeviceRGB") ?_
  refine le_trans (print_offset_le sink _ "/BitsPerComponent 8") ?_
  refine le_trans (printf_offset_le sink _ ("/Length " ++ fmtInt data.length)) ?_
  refine le_trans (print_offset_le sink _ ">>") ?_
  exact le_trans (writeStream_offset_le sink _ data) (endObj_offset_le sink _)

theorem WriteInfo_objects (sink : Sink) (s : PDFWriter) (t m : String) :
    (WriteInfo sink s t m).objects = s.objects ++ [s.offset] := by
  simp only [WriteInfo, endObj_objects, print_objects, printf_objects,
    startObj_objects]

theorem WriteInfo_infoId (sink : Sink) (s : PDFWriter) (t m : String) :
    (WriteInfo sink s t m).infoId = s.objects.length + 1 := by
  simp only [WriteInfo, endObj_infoId, print_infoId, printf_infoId,
    startObj_snd]

theorem WriteInfo_pages (sink : Sink) (s : PDFWriter) (t m : String) :
    (WriteInfo sink s t m).pages = s.pages := by
  simp only [WriteInfo, endObj_pages, print_pages, printf_pages,
    startObj_pages]

theorem WriteInfo_offset_le (sink : Sink) (s : PDFWriter) (t m : String) :
    s.offset ≤ (WriteInfo sink s t m).offset := by
  simp only [WriteInfo]
  refine le_trans (startObj_offset_le sink s) ?_
  refine le_trans (printf_offset_le sink
    ⟨(startObj sink s).1.offset, (startObj sink s).1.objects,
     (startObj sink s).1.pages, (startObj sink s).1.err, (startObj sink s).2,
     (startObj sink s).1.out, (startObj sink s).1.widx⟩
    ("/Title (" ++ t ++ ")")) ?_
  refine le_trans (printf_offset_le sink _ ("/CreationDate (D:" ++ m ++ ")")) ?_
  refine le_trans (printf_offset_le sink _ ("/ModDate (D:" ++ m ++ ")")) ?_
  exact le_trans (print_offset_le sink _ "/Producer (mvztopdf 1.0)")
    (endObj_offset_le sink _)

/-- `WritePage` never reaches its panic branch: the content stream's id is
always the page id plus one, the page id is appended to the page list, and
the metadata id is untouched. -/
theorem WritePage_some (sink : Sink) (s : PDFWriter) (x y : ℚ)
    (data : List ℕ) :
    ∃ s', WritePage sink s x y data = some (s', s.objects.length + 1)
      ∧ s'.pages = s.pages ++ [s.objects.length + 1]
      ∧ s'.infoId = s.infoId
      ∧ s.offset ≤ s'.offset := by
  simp only [WritePage, writeStreamObject_snd, writeStreamObject_pages,
    writeStreamObject_infoId, endObj_objects, endObj_pages, endObj_infoId,
    printf_objects, printf_pages, printf_infoId, print_objects, print_pages,
    print_infoId, startObj_objects, startObj_pages, startObj_infoId,
    startObj_snd, List.length_append, List.length_cons, List.length_nil,
    Nat.zero_add, ne_eq, Nat.add_right_cancel_iff, not_true_eq_false,
    and_false, if_false]
  refine ⟨_, rfl, rfl, rfl, ?_⟩
  refine le_trans (startObj_offset_le sink s) ?_
  refine le_trans (print_offset_le sink _ "/Type /Page") ?_
  refine le_trans (printf_offset_le sink _
    ("/MediaBox [0 0 " ++ fmtF2 x ++ " " ++ fmtF2 y ++ "]")) ?_
  refine le_trans (printf_offset_le sink _
    ("/CropBox [0 0 " ++ fmtF2 x ++ " " ++ fmtF2 y ++ "]")) ?_
  refine le_trans (printf_offset_le sink _
    ("/Contents " ++ fmtInt (s.objects.length + 1 + 1) ++ " 0 R")) ?_
  exact le_trans (endObj_offset_le sink _)
    (writeStreamObject_offset_le sink _ data)

/-- `WriteJPEGPage` never reaches either panic branch: content stream id is
the page id plus one and the image id the page id plus two. -/
theorem WriteJPEGPage_some (sink : Sink) (s : PDFWriter) (dx dy : ℕ)
    (data : List ℕ) :
    ∃ s', WriteJPEGPage sink s dx dy data = some (s', s.objects.length + 1)
      ∧ s'.pages = s.pages ++ [s.objects.length + 1]
      ∧ s'.infoId = s.infoId
      ∧ s.offset ≤ s'.offset := by
  simp only [WriteJPEGPage, writeImage_snd, writeImage_pages,
    writeImage_infoId, writeStreamObject_snd, writeStreamObject_objects,
    writeStreamObject_pages, writeStreamObject_infoId, endObj_objects,
    endObj_pages, endObj_infoId, printf_objects, printf_pages, printf_infoId,
    print_objects, print_pages, print_infoId, startObj_objects,
    startObj_pages, startObj_infoId, startObj_snd, List.length_append,
    List.length_cons, List.length_nil, Nat.zero_add, ne_eq,
    Nat.add_right_cancel_iff, not_true_eq_false, and_false, if_false]
  refine ⟨_, rfl, rfl, rfl, ?_⟩
  refine le_trans (startObj_offset_le sink s) ?_
  refine le_trans (print_offset_le sink _ "/Type /Page") ?_
  refine le_trans (printf_offset_le sink _
    ("/MediaBox [0 0 " ++ fmtF2 ((dx : ℚ) / 150 * 72) ++ " "
      ++ fmtF2 ((dy : ℚ) / 150 * 72) ++ "]")) ?_
  refine le_trans (printf_offset_le sink _
    ("/CropBox [0 0 " ++ fmtF2 ((dx : ℚ) / 150 * 72) ++ " "
      ++ fmtF2 ((dy : ℚ) / 150 * 72) ++ "]")) ?_
  refine le_trans (printf_offset_le sink _
    ("/Contents " ++ fmtInt (s.objects.length + 1 + 1) ++ " 0 R")) ?_
  refine le_trans (printf_offset_le sink _
    ("/Resources << /XObject << /I " ++ fmtInt (s.objects.length + 1 + 2) ++ " 0 R >> >>")) ?_
  refine le_trans (endObj_offset_le sink _) ?_
  refine le_trans (writeStreamObject_offset_le sink _
    (strBytes ("q\n" ++ fmtF2 ((dx : ℚ) / 150 * 72) ++ " 0 0 "
      ++ fmtF2 ((dy : ℚ) / 150 * 72) ++ " 0 0 cm\n" ++ "/I Do\n" ++ "Q\n"))) ?_
  exact writeImage_offset_le sink _ dx dy data

/-! ## The offset/object-table invariant

On an error-free execution the cursor always equals the number of bytes
written, and every entry of the object table is the exact byte position at
which the corresponding object's header line begins in the output. -/

/-- At byte position `pos` of `out` stands the object header line
`"<id> 0 obj"` followed by a newline. -/
def headerAt (out : List ℕ) (pos id : ℕ) : Prop :=
  ∃ rest, out.drop pos = emitPrint (fmtInt id ++ " 0 obj") ++ rest

/-- Invariant of the cursor, object table and output: the cursor equals
the output length, and entry `k` (0-based) of the table is the byte
position of object `k+1`'s header line. -/
def InvOn (o : ℕ) (objs : List ℕ) (out : List ℕ) : Prop :=
  o = out.length ∧
  ∀ k, (hk : k < objs.length) →
    objs[k] ≤ out.length ∧ headerAt out objs[k] (k + 1)

def WInv (s : PDFWriter) : Prop := InvOn s.offset s.objects s.out

theorem headerAt_append {out : List ℕ} {pos id : ℕ}
    (h : headerAt out pos id) (hle : pos ≤ out.length) (b : List ℕ) :
    headerAt (out ++ b) pos id := by
  obtain ⟨rest, hr⟩ := h
  refine ⟨rest ++ b, ?_⟩
  rw [List.drop_append_of_le_length hle, hr, List.append_assoc]

theorem InvOn_append {o : ℕ} {objs out : List ℕ}
    (h : InvOn o objs out) (b : List ℕ) :
    InvOn (o + b.length) objs (out ++ b) := by
  obtain ⟨h1, h2⟩ := h
  constructor
  · simp [h1]
  · intro k hk
    obtain ⟨hle, hhd⟩ := h2 k hk
    exact ⟨le_trans hle (by simp), headerAt_append hhd hle b⟩

theorem InvOn_startObj {o : ℕ} {objs out : List ℕ}
    (h : InvOn o objs out) :
    InvOn (o + (emitObjHeader (objs.length + 1)).length) (objs ++ [o])
      (out ++ emitObjHeader (objs.length + 1)) := by
  obtain ⟨h1, h2⟩ := h
  constructor
  · simp [h1]
  · intro k hk
    rcases Nat.lt_or_ge k objs.length with hlt | hge
    · have hget : (objs ++ [o])[k] = objs[k] :=
        List.getElem_append_left hlt
      rw [hget]
      obtain ⟨hle, hhd⟩ := h2 k hlt
      exact ⟨le_trans hle (by simp), headerAt_append hhd hle _⟩
    · have hk' : k = objs.length := by
        have := hk
        simp only [List.length_append, List.length_cons, List.length_nil] at this
        omega
      subst hk'
      have hget : (objs ++ [o])[objs.length] = o := by
        simp
      rw [hget]
      constructor
      · simp [h1]
      · refine ⟨emitPrint "<<", ?_⟩
        rw [h1, List.drop_left, emitObjHeader]

theorem Inv_print (sink : Sink) (hs : NoFail sink) {s : PDFWriter}
    (h : WInv s) (str : String) : WInv (print sink s str) := by
  obtain ⟨o, objs, pgs, e, info, out, w⟩ := s
  rw [print_ok sink hs]
  exact InvOn_append h (emitPrint str)

theorem Inv_printf (sink : Sink) (hs : NoFail sink) {s : PDFWriter}
    (h : WInv s) (str : String) : WInv (printf sink s str) :=
  Inv_print sink hs h str

theorem Inv_endObj (sink : Sink) (hs : NoFail sink) {s : PDFWriter}
    (h : WInv s) : WInv (endObj sink s) := by
  obtain ⟨o, objs, pgs, e, info, out, w⟩ := s
  rw [endObj_ok sink hs]
  exact InvOn_append h emitEndObj

theorem Inv_writeStream (sink : Sink) (hs : NoFail sink) {s : PDFWriter}
    (h : WInv s) (data : List ℕ) : WInv (writeStream sink s data) := by
  obtain ⟨o, objs, pgs, e, info, out, w⟩ := s
  rw [writeStream_ok sink hs]
  exact InvOn_append h (emitStream data)

theorem Inv_startObj (sink : Sink) (hs : NoFail sink) {s : PDFWriter}
    (h : WInv s) : WInv (startObj sink s).1 := by
  obtain ⟨o, objs, pgs, e, info, out, w⟩ := s
  rw [startObj_ok sink hs]
  exact InvOn_startObj h

theorem Inv_writeStreamObject (sink : Sink) (hs : NoFail sink)
    {s : PDFWriter} (h : WInv s) (data : List ℕ) :
    WInv (writeStreamObject sink s data).1 := by
  simp only [writeStreamObject]
  exact Inv_endObj sink hs
    (Inv_writeStream sink hs
      (Inv_print sink hs
        (Inv_printf sink hs (Inv_startObj sink hs h) _) _) data)

set_option maxHeartbeats 1000000 in
theorem Inv_writeImage (sink : Sink) (hs : NoFail sink) {s : PDFWriter}
    (h : WInv s) (wpx hpx : ℕ) (data : List ℕ) :
    WInv (writeImage sink s wpx hpx data).1 := by
  simp only [writeImage]
  refine Inv_endObj sink hs (Inv_writeStream sink hs ?_ data)
  refine Inv_print sink hs ?_ _
  refine Inv_printf sink hs ?_ _
  refine Inv_print sink hs ?_ _
  refine Inv_print sink hs ?_ _
  refine Inv_printf sink hs ?_ _
  refine Inv_printf sink hs ?_ _
  refine Inv_print sink hs ?_ _
  refine Inv_print sink hs ?_ _
  refine Inv_print sink hs ?_ _
  refine Inv_print sink hs ?_ _
  exact Inv_startObj sink hs h

/-! ## Output/error/cursor projections on a no-failure sink -/

theorem print_out_ok (sink : Sink) (hs : NoFail sink) (s : PDFWriter)
    (str : String) : (print sink s str).out = s.out ++ emitPrint str := by
  obtain ⟨o, objs, pgs, e, info, out, w⟩ := s
  rw [print_ok sink hs]

theorem print_err_ok (sink : Sink) (hs : NoFail sink) (s : PDFWriter)
    (str : String) : (print sink s str).err = none := by
  obtain ⟨o, objs, pgs, e, info, out, w⟩ := s
  rw [print_ok sink hs]

theorem print_offset_ok (sink : Sink) (hs : NoFail sink) (s : PDFWriter)
    (str : String) :
    (print sink s str).offset = s.offset + (emitPrint str).length := by
  obtain ⟨o, objs, pgs, e, info, out, w⟩ := s
  rw [print_ok sink hs]

theorem printf_out_ok (sink : Sink) (hs : NoFail sink) (s : PDFWriter)
    (str : String) : (printf sink s str).out = s.out ++ emitPrint str :=
  print_out_ok sink hs s str

theorem printf_err_ok (sink : Sink) (hs : NoFail sink) (s : PDFWriter)
    (str : String) : (printf sink s str).err = none :=
  print_err_ok sink hs s str

theorem printf_offset_ok (sink : Sink) (hs : NoFail sink) (s : PDFWriter)
    (str : String) :
    (printf sink s str).offset = s.offset + (emitPrint str).length :=
  print_offset_ok sink hs s str

theorem startObj_out_ok (sink : Sink) (hs : NoFail sink) (s : PDFWriter) :
    (startObj sink s).1.out
      = s.out ++ emitObjHeader (s.objects.length + 1) := by
  obtain ⟨o, objs, pgs, e, info, out, w⟩ := s
  rw [startObj_ok sink hs]

theorem startObj_err_ok (sink : Sink) (hs : NoFail sink) (s : PDFWriter) :
    (startObj sink s).1.err = none := by
  obtain ⟨o, objs, pgs, e, info, out, w⟩ := s
  rw [startObj_ok sink hs]

theorem startObj_offset_ok (sink : Sink) (hs : NoFail sink) (s : PDFWriter) :
    (startObj sink s).1.offset
      = s.offset + (emitObjHeader (s.objects.length + 1)).length := by
  obtain ⟨o, objs, pgs, e, info, out, w⟩ := s
  rw [startObj_ok sink hs]

theorem endObj_out_ok (sink : Sink) (hs : NoFail sink) (s : PDFWriter) :
    (endObj sink s).out = s.out ++ emitEndObj := by
  obtain ⟨o, objs, pgs, e, info, out, w⟩ := s
  rw [endObj_ok sink hs]

theorem endObj_err_ok (sink : Sink) (hs : NoFail sink) (s : PDFWriter) :
    (endObj sink s).err = none := by
  obtain ⟨o, objs, pgs, e, info, out, w⟩ := s
  rw [endObj_ok sink hs]

theorem endObj_offset_ok (sink : Sink) (hs : NoFail sink) (s : PDFWriter) :
    (endObj sink s).offset = s.offset + emitEndObj.length := by
  obtain ⟨o, objs, pgs, e, info, out, w⟩ := s
  rw [endObj_ok sink hs]

theorem writeStream_out_ok (sink : Sink) (hs : NoFail sink) (s : PDFWriter)
    (data : List ℕ) :
    (writeStream sink s data).out = s.out ++ emitStream data := by
  obtain ⟨o, objs, pgs, e, info, out, w⟩ := s
  rw [writeStream_ok sink hs]

theorem writeStream_err_ok (sink : Sink) (hs : NoFail sink) (s : PDFWriter)
    (data : List ℕ) : (writeStream sink s data).err = none := by
  obtain ⟨o, objs, pgs, e, info, out, w⟩ := s
  rw [writeStream_ok sink hs]

theorem writeStream_offset_ok (sink : Sink) (hs : NoFail sink)
    (s : PDFWriter) (data : List ℕ) :
    (writeStream sink s data).offset = s.offset + (emitStream data).length := by
  obtain ⟨o, objs, pgs, e, info, out, w⟩ := s
  rw [writeStream_ok sink hs]

/-! ## The cross-reference entry loop of `Flush` -/

theorem foldXref_out (sink : Sink) (hs : NoFail sink) (objsIter : List ℕ) :
    ∀ s : PDFWriter,
    (objsIter.foldl
        (fun acc off => printf sink acc (pad10 off ++ " 00000 n")) s).out
      = s.out ++ (objsIter.map xrefEntry).flatten := by
  induction objsIter with
  | nil => intro s; simp
  | cons a l ih =>
      intro s
      simp only [List.foldl_cons, List.map_cons, List.flatten_cons]
      rw [ih, printf_out_ok sink hs, xrefEntry, List.append_assoc]

theorem foldXref_err (sink : Sink) (hs : NoFail sink) (objsIter : List ℕ)
    (s : PDFWriter) (he : s.err = none) :
    (objsIter.foldl
        (fun acc off => printf sink acc (pad10 off ++ " 00000 n")) s).err
      = none := by
  induction objsIter generalizing s with
  | nil => simpa using he
  | cons a l ih =>
      simp only [List.foldl_cons]
      exact ih _ (printf_err_ok sink hs _ _)

theorem foldXref_offset (sink : Sink) (hs : NoFail sink) (objsIter : List ℕ) :
    ∀ s : PDFWriter,
    (objsIter.foldl
        (fun acc off => printf sink acc (pad10 off ++ " 00000 n")) s).offset
      = s.offset + ((objsIter.map xrefEntry).flatten).length := by
  induction objsIter with
  | nil => intro s; simp
  | cons a l ih =>
      intro s
      simp only [List.foldl_cons, List.map_cons, List.flatten_cons]
      rw [ih, printf_offset_ok sink hs, xrefEntry]
      simp
      omega

theorem foldXref_objects (sink : Sink) (objsIter : List ℕ) :
    ∀ s : PDFWriter,
    (objsIter.foldl
        (fun acc off => printf sink acc (pad10 off ++ " 00000 n")) s).objects
      = s.objects := by
  induction objsIter with
  | nil => intro s; simp
  | cons a l ih =>
      intro s
      simp only [List.foldl_cons]
      rw [ih, printf_objects]

theorem foldXref_infoId (sink : Sink) (objsIter : List ℕ) :
    ∀ s : PDFWriter,
    (objsIter.foldl
        (fun acc off => printf sink acc (pad10 off ++ " 00000 n")) s).infoId
      = s.infoId := by
  induction objsIter with
  | nil => intro s; simp
  | cons a l ih =>
      intro s
      simp only [List.foldl_cons]
      rw [ih, printf_infoId]

/-- Everything `Flush` appends to the output on a no-failure sink, as a
function of the state it starts from: pages-tree object, catalog object,
cross-reference section over the final object table, trailer. -/
def flushBytes (o : ℕ) (objs pgs : List ℕ) (info : ℕ) : List ℕ :=
  pagesObjBytes (objs.length + 1) pgs
    ++ catalogBytes (objs.length + 1 + 1) (objs.length + 1)
    ++ xrefBytes (objs ++ [o, o + (pagesObjBytes (objs.length + 1) pgs).length])
    ++ trailerBytes
        ((objs ++ [o, o + (pagesObjBytes (objs.length + 1) pgs).length]).length + 1)
        info (objs.length + 1 + 1)
        (o + (pagesObjBytes (objs.length + 1) pgs).length
           + (catalogBytes (objs.length + 1 + 1) (objs.length + 1)).length)

theorem Flush_out (sink : Sink) (hs : NoFail sink) (s : PDFWriter) :
    (Flush sink s).1.out
      = s.out ++ flushBytes s.offset s.objects s.pages s.infoId := by
  simp only [Flush, print_out_ok sink hs, printf_out_ok sink hs,
    startObj_out_ok sink hs, endObj_out_ok sink hs,
    print_err_ok sink hs, printf_err_ok sink hs, startObj_err_ok sink hs,
    endObj_err_ok sink hs, print_offset_ok sink hs, printf_offset_ok sink hs,
    startObj_offset_ok sink hs, endObj_offset_ok sink hs,
    print_objects, printf_objects, startObj_objects, endObj_objects,
    print_pages, printf_pages, startObj_pages, endObj_pages,
    print_infoId, printf_infoId, startObj_infoId, endObj_infoId,
    startObj_snd, foldXref_out sink hs, foldXref_err sink hs,
    foldXref_offset sink hs, foldXref_objects sink, foldXref_infoId sink,
    Option.isSome_none, Bool.false_eq_true, if_false]
  simp [flushBytes, pagesObjBytes, catalogBytes, xrefBytes, trailerBytes,
    List.append_assoc, Nat.add_assoc]

theorem Flush_objects (sink : Sink) (hs : NoFail sink) (s : PDFWriter) :
    (Flush sink s).1.objects
      = s.objects ++ [s.offset,
          s.offset + (pagesObjBytes (s.objects.length + 1) s.pages).length] := by
  simp only [Flush, print_out_ok sink hs, printf_out_ok sink hs,
    startObj_out_ok sink hs, endObj_out_ok sink hs,
    print_err_ok sink hs, printf_err_ok sink hs, startObj_err_ok sink hs,
    endObj_err_ok sink hs, print_offset_ok sink hs, printf_offset_ok sink hs,
    startObj_offset_ok sink hs, endObj_offset_ok sink hs,
    print_objects, printf_objects, startObj_objects, endObj_objects,
    print_pages, printf_pages, startObj_pages, endObj_pages,
    print_infoId, printf_infoId, startObj_infoId, endObj_infoId,
    startObj_snd, foldXref_out sink hs, foldXref_err sink hs,
    foldXref_offset sink hs, foldXref_objects sink, foldXref_infoId sink,
    Option.isSome_none, Bool.false_eq_true, if_false]
  simp [pagesObjBytes, List.append_assoc, Nat.add_assoc]

theorem Flush_snd (sink : Sink) (hs : NoFail sink) (s : PDFWriter) :
    (Flush sink s).2 = none := by
  simp only [Flush, print_err_ok sink hs, printf_err_ok sink hs,
    startObj_err_ok sink hs, endObj_err_ok sink hs,
    foldXref_err sink hs, Option.isSome_none, Bool.false_eq_true, if_false]

/-! ## Invariant preservation through the public API -/

theorem Inv_WriteInfo (sink : Sink) (hs : NoFail sink) {s : PDFWriter}
    (h : WInv s) (t m : String) : WInv (WriteInfo sink s t m) := by
  simp only [WriteInfo]
  refine Inv_endObj sink hs ?_
  refine Inv_print sink hs ?_ _
  refine Inv_printf sink hs ?_ _
  refine Inv_printf sink hs ?_ _
  refine Inv_printf sink hs ?_ _
  exact Inv_startObj sink hs h

theorem Inv_WritePage (sink : Sink) (hs : NoFail sink) {s : PDFWriter}
    (h : WInv s) (x y : ℚ) (data : List ℕ) {r : PDFWriter × ℕ}
    (hr : WritePage sink s x y data = some r) : WInv r.1 := by
  simp only [WritePage] at hr
  split at hr
  · exact absurd hr (by simp)
  · have hr' := Option.some.inj hr
    subst hr'
    refine Inv_writeStreamObject sink hs ?_ data
    refine Inv_endObj sink hs ?_
    refine Inv_printf sink hs ?_ _
    refine Inv_printf sink hs ?_ _
    refine Inv_printf sink hs ?_ _
    refine Inv_print sink hs ?_ _
    exact Inv_startObj sink hs h

theorem Inv_WriteJPEGPage (sink : Sink) (hs : NoFail sink) {s : PDFWriter}
    (h : WInv s) (dx dy : ℕ) (data : List ℕ) {r : PDFWriter × ℕ}
    (hr : WriteJPEGPage sink s dx dy data = some r) : WInv r.1 := by
  simp only [WriteJPEGPage] at hr
  split at hr
  · exact absurd hr (by simp)
  · split at hr
    · exact absurd hr (by simp)
    · have hr' := Option.some.inj hr
      subst hr'
      refine Inv_writeImage sink hs ?_ dx dy data
      refine Inv_writeStreamObject sink hs ?_ _
      refine Inv_endObj sink hs ?_
      refine Inv_printf sink hs ?_ _
      refine Inv_printf sink hs ?_ _
      refine Inv_printf sink hs ?_ _
      refine Inv_printf sink hs ?_ _
      refine Inv_print sink hs ?_ _
      exact Inv_startObj sink hs h

theorem Inv_applyOp (sink : Sink) (hs : NoFail sink) {s s' : PDFWriter}
    (h : WInv s) (op : Op) (hr : applyOp sink s op = some s') : WInv s' := by
  cases op with
  | info t m =>
      simp only [applyOp] at hr
      have hr' := Option.some.inj hr
      subst hr'
      exact Inv_WriteInfo sink hs h t m
  | page x y d =>
      simp only [applyOp, Option.map_eq_some'] at hr
      obtain ⟨r, hr1, hr2⟩ := hr
      subst hr2
      exact Inv_WritePage sink hs h x y d hr1
  | jpegPage dx dy d =>
      simp only [applyOp, Option.map_eq_some'] at hr
      obtain ⟨r, hr1, hr2⟩ := hr
      subst hr2
      exact Inv_WriteJPEGPage sink hs h dx dy d hr1

theorem Inv_runOps (sink : Sink) (hs : NoFail sink) (ops : List Op) :
    ∀ {s s' : PDFWriter}, WInv s → runOps sink s ops = some s' → WInv s' := by
  induction ops with
  | nil =>
      intro s s' h hr
      simp only [runOps] at hr
      have hr' := Option.some.inj hr
      subst hr'
      exact h
  | cons op ops ih =>
      intro s s' h hr
      simp only [runOps] at hr
      cases hap : applyOp sink s op with
      | none => rw [hap] at hr; exact absurd hr (by simp)
      | some s1 =>
          rw [hap] at hr
          exact ih (Inv_applyOp sink hs h op hap) hr

theorem Inv_initPDF (sink : Sink) (hs : NoFail sink) : WInv (initPDF sink) := by
  have h0 : WInv (⟨0, [], [], none, 0, [], 0⟩ : PDFWriter) := by
    constructor
    · rfl
    · intro k hk
      simp at hk
  simp only [initPDF, NewPDFWriter]
  exact Inv_print sink hs h0 "%PDF-1.3"

theorem Inv_foldXref (sink : Sink) (hs : NoFail sink) (objsIter : List ℕ) :
    ∀ {s : PDFWriter}, WInv s →
      WInv (objsIter.foldl
        (fun acc off => printf sink acc (pad10 off ++ " 00000 n")) s) := by
  induction objsIter with
  | nil => intro s h; simpa using h
  | cons a l ih =>
      intro s h
      simp only [List.foldl_cons]
      exact ih (Inv_printf sink hs h _)

theorem Inv_Flush (sink : Sink) (hs : NoFail sink) {s : PDFWriter}
    (h : WInv s) : WInv (Flush sink s).1 := by
  simp only [Flush, endObj_err_ok sink hs, Option.isSome_none,
    Bool.false_eq_true, if_false]
  refine Inv_print sink hs ?_ _
  refine Inv_printf sink hs ?_ _
  refine Inv_print sink hs ?_ _
  refine Inv_print sink hs ?_ _
  refine Inv_printf sink hs ?_ _
  refine Inv_printf sink hs ?_ _
  refine Inv_printf sink hs ?_ _
  refine Inv_printf sink hs ?_ _
  refine Inv_print sink hs ?_ _
  refine Inv_print sink hs ?_ _
  refine Inv_foldXref sink hs _ ?_
  refine Inv_print sink hs ?_ _
  refine Inv_printf sink hs ?_ _
  refine Inv_print sink hs ?_ _
  refine Inv_endObj sink hs ?_
  refine Inv_printf sink hs ?_ _
  refine Inv_print sink hs ?_ _
  refine Inv_startObj sink hs ?_
  refine Inv_endObj sink hs ?_
  refine Inv_printf sink hs ?_ _
  refine Inv_printf sink hs ?_ _
  refine Inv_print sink hs ?_ _
  exact Inv_startObj sink hs h

/-! ## Emitted bytes of stream objects, image objects, JPEG pages -/

/-- All bytes `writeStreamObject` emits: header, `/Length` declaring the
payload's exact byte count, dictionary close, the framed stream, `endobj`. -/
def streamObjBytes (id : ℕ) (data : List ℕ) : List ℕ :=
  emitObjHeader id ++ emitPrint ("/Length " ++ fmtInt data.length)
    ++ emitPrint ">>" ++ emitStream data ++ emitEndObj

/-- All bytes `writeImage` emits: XObject dictionary with `/Length`
declaring the payload's exact byte count, then the framed stream. -/
def imageObjBytes (id wpx hpx : ℕ) (data : List ℕ) : List ℕ :=
  emitObjHeader id ++ emitPrint "/Type /XObject" ++ emitPrint "/Subtype /Image"
    ++ emitPrint "/Name /I" ++ emitPrint "/Filter [ /DCTDecode ]"
    ++ emitPrint ("/Width " ++ fmtInt wpx) ++ emitPrint ("/Height " ++ fmtInt hpx)
    ++ emitPrint "/ColorSpace /DeviceRGB" ++ emitPrint "/BitsPerComponent 8"
    ++ emitPrint ("/Length " ++ fmtInt data.length) ++ emitPrint ">>"
    ++ emitStream data ++ emitEndObj

/-- All bytes the page-object part of `WriteJPEGPage` emits. -/
def jpegPageObjBytes (id : ℕ) (x y : ℚ) : List ℕ :=
  emitObjHeader id ++ emitPrint "/Type /Page"
    ++ emitPrint ("/MediaBox [0 0 " ++ fmtF2 x ++ " " ++ fmtF2 y ++ "]")
    ++ emitPrint ("/CropBox [0 0 " ++ fmtF2 x ++ " " ++ fmtF2 y ++ "]")
    ++ emitPrint ("/Contents " ++ fmtInt (id + 1) ++ " 0 R")
    ++ emitPrint ("/Resources << /XObject << /I " ++ fmtInt (id + 2) ++ " 0 R >> >>")
    ++ emitEndObj

theorem writeStreamObject_out_ok (sink : Sink) (hs : NoFail sink)
    (s : PDFWriter) (data : List ℕ) :
    (writeStreamObject sink s data).1.out
      = s.out ++ streamObjBytes (s.objects.length + 1) data := by
  simp only [writeStreamObject, endObj_out_ok sink hs,
    writeStream_out_ok sink hs, print_out_ok sink hs, printf_out_ok sink hs,
    startObj_out_ok sink hs, print_objects, printf_objects, startObj_objects,
    writeStream_objects, endObj_objects]
  simp [streamObjBytes, List.append_assoc]

theorem writeImage_out_ok (sink : Sink) (hs : NoFail sink)
    (s : PDFWriter) (wpx hpx : ℕ) (data : List ℕ) :
    (writeImage sink s wpx hpx data).1.out
      = s.out ++ imageObjBytes (s.objects.length + 1) wpx hpx data := by
  simp only [writeImage, endObj_out_ok sink hs,
    writeStream_out_ok sink hs, print_out_ok sink hs, printf_out_ok sink hs,
    startObj_out_ok sink hs, print_objects, printf_objects, startObj_objects,
    writeStream_objects, endObj_objects]
  simp [imageObjBytes, List.append_assoc]

/-- On a no-failure sink `WriteJPEGPage` returns the page object and emits
the page object, its content stream (declared as the next object) and the
image XObject (declared as the object after that), in that order. -/
theorem WriteJPEGPage_out_ok (sink : Sink) (hs : NoFail sink)
    (s : PDFWriter) (dx dy : ℕ) (data : List ℕ) :
    ∃ s', WriteJPEGPage sink s dx dy data = some (s', s.objects.length + 1)
      ∧ s'.out = s.out
          ++ jpegPageObjBytes (s.objects.length + 1)
               ((dx : ℚ) / 150 * 72) ((dy : ℚ) / 150 * 72)
          ++ streamObjBytes (s.objects.length + 1 + 1)
               (strBytes ("q\n" ++ fmtF2 ((dx : ℚ) / 150 * 72) ++ " 0 0 "
                  ++ fmtF2 ((dy : ℚ) / 150 * 72) ++ " 0 0 cm\n" ++ "/I Do\n" ++ "Q\n"))
          ++ imageObjBytes (s.objects.length + 1 + 1 + 1) dx dy data := by
  simp only [WriteJPEGPage, writeImage_snd, writeStreamObject_snd,
    writeStreamObject_objects, endObj_objects, printf_objects, print_objects,
    startObj_objects, startObj_snd, List.length_append, List.length_cons,
    List.length_nil, Nat.zero_add, ne_eq, Nat.add_right_cancel_iff,
    not_true_eq_false, and_false, if_false]
  refine ⟨_, rfl, ?_⟩
  simp only [writeImage_out_ok sink hs, writeStreamObject_out_ok sink hs,
    endObj_out_ok sink hs, printf_out_ok sink hs, print_out_ok sink hs,
    startObj_out_ok sink hs, writeStreamObject_objects, endObj_objects,
    printf_objects, print_objects, startObj_objects, List.length_append,
    List.length_cons, List.length_nil, Nat.zero_add]
  simp [jpegPageObjBytes, streamObjBytes, imageObjBytes, List.append_assoc]

/-- Each table entry's 19-byte line occurs inside the emitted
cross-reference section. -/
theorem xrefEntry_occurs (objs : List ℕ) (off : ℕ) (hmem : off ∈ objs) :
    List.IsInfix (xrefEntry off) (xrefBytes objs) := by
  have h1 : List.IsInfix (xrefEntry off) ((objs.map xrefEntry).flatten) := by
    induction objs with
    | nil => cases hmem
    | cons a l ih =>
        simp only [List.map_cons, List.flatten_cons]
        rcases List.mem_cons.mp hmem with h | h
        · subst h
          exact ⟨[], (l.map xrefEntry).flatten, by simp⟩
        · exact (ih h).trans (List.suffix_append _ _).isInfix
  obtain ⟨p, q, hpq⟩ := h1
  refine ⟨emitPrint "xref" ++ emitPrint ("0 " ++ fmtInt (objs.length + 1))
      ++ emitPrint "0000000000 65535 f" ++ p, q, ?_⟩
  rw [xrefBytes, ← hpq]
  simp [List.append_assoc]

theorem foldXref_offset_le (sink : Sink) (objsIter : List ℕ) :
    ∀ s : PDFWriter, s.offset ≤
      (objsIter.foldl
        (fun acc off => printf sink acc (pad10 off ++ " 00000 n")) s).offset := by
  induction objsIter with
  | nil => intro s; simp
  | cons a l ih =>
      intro s
      simp only [List.foldl_cons]
      exact le_trans (printf_offset_le sink s _) (ih _)

/-- On any sink (failing or not), `Flush` never decreases the cursor. -/
theorem Flush_offset_le (sink : Sink) (s : PDFWriter) :
    s.offset ≤ (Flush sink s).1.offset := by
  simp only [Flush]
  split
  · refine le_trans (startObj_offset_le sink s) ?_
    refine le_trans ?_ (endObj_offset_le sink _)
    refine le_trans ?_ (printf_offset_le sink _ _)
    refine le_trans ?_ (printf_offset_le sink _ _)
    exact print_offset_le sink _ _
  · refine le_trans ?_ (print_offset_le sink _ _)
    refine le_trans ?_ (printf_offset_le sink _ _)
    refine le_trans ?_ (print_offset_le sink _ _)
    refine le_trans ?_ (print_offset_le sink _ _)
    refine le_trans ?_ (printf_offset_le sink _ _)
    refine le_trans ?_ (printf_offset_le sink _ _)
    refine le_trans ?_ (printf_offset_le sink _ _)
    refine le_trans ?_ (printf_offset_le sink _ _)
    refine le_trans ?_ (print_offset_le sink _ _)
    refine le_trans ?_ (print_offset_le sink _ _)
    refine le_trans ?_ (foldXref_offset_le sink _ _)
    refine le_trans ?_ (print_offset_le sink _ _)
    refine le_trans ?_ (printf_offset_le sink _ _)
    refine le_trans ?_ (print_offset_le sink _ _)
    refine le_trans ?_ (endObj_offset_le sink _)
    refine le_trans ?_ (printf_offset_le sink _ _)
    refine le_trans ?_ (print_offset_le sink _ _)
    refine le_trans ?_ (startObj_offset_le sink _)
    refine le_trans ?_ (endObj_offset_le sink _)
    refine le_trans ?_ (printf_offset_le sink _ _)
    refine le_trans ?_ (printf_offset_le sink _ _)
    refine le_trans ?_ (print_offset_le sink _ _)
    exact startObj_offset_le sink s

/-! ## Claims -/

/-- C8: in every execution (error-free ones in particular) the content
stream allocated by `writeStreamObject` gets the identifier one past the
caller's last object, likewise `writeImage`; consequently `WritePage` and
`WriteJPEGPage` always return the newly written page's identifier
(`s.objects.length + 1`) instead of reaching their internal-consistency
panic branches (modelled as `none`), which are therefore unreachable. -/
theorem adjacency_panics_unreachable (sink : Sink) (s : PDFWriter)
    (x y : ℚ) (dx dy : ℕ) (data : List ℕ) :
    (writeStreamObject sink s data).2 = s.objects.length + 1
    ∧ (writeImage sink s dx dy data).2 = s.objects.length + 1
    ∧ (∃ s', WritePage sink s x y data = some (s', s.objects.length + 1))
    ∧ (∃ s', WriteJPEGPage sink s dx dy data
        = some (s', s.objects.length + 1)) := by
  refine ⟨writeStreamObject_snd sink s data, writeImage_snd sink s dx dy data,
    ?_, ?_⟩
  · obtain ⟨s', h, -, -, -⟩ := WritePage_some sink s x y data
    exact ⟨s', h⟩
  · obtain ⟨s', h, -, -, -⟩ := WriteJPEGPage_some sink s dx dy data
    exact ⟨s', h⟩

/-- C10: the framing emitted by `writeStream` is exactly the keyword line
`stream` followed by one newline, then the raw payload bytes, then
immediately the keyword `endstream` with no terminator between the last
payload byte and `endstream` (the newline after `endstream` only ends that
keyword's own line). -/
theorem stream_framing_exact (sink : Sink) (hs : NoFail sink)
    (s : PDFWriter) (data : List ℕ) :
    (writeStream sink s data).out
      = s.out ++ (strBytes "stream" ++ [10]) ++ data
          ++ (strBytes "endstream" ++ [10]) := by
  rw [writeStream_out_ok sink hs]
  simp [emitStream, emitPrint, List.append_assoc]

theorem stream_framing_exact_witness :
    (writeStream okSink ⟨0, [], [], none, 0, [], 0⟩ [65, 66]).out
      = [] ++ (strBytes "stream" ++ [10]) ++ [65, 66]
          ++ (strBytes "endstream" ++ [10]) :=
  stream_framing_exact okSink (fun _ _ => rfl) ⟨0, [], [], none, 0, [], 0⟩
    [65, 66]

/-- C5: for both stream-emitting objects the declared `/Length` value is
`fmtInt data.length`, the exact byte count of the payload `data`, which is
precisely what stands framed between the `stream` and `endstream` markers
(only the newline ending the `stream` keyword line separates them). -/
theorem stream_length_exact (sink : Sink) (hs : NoFail sink)
    (s : PDFWriter) (wpx hpx : ℕ) (data : List ℕ) :
    (writeStreamObject sink s data).1.out
      = s.out ++ streamObjBytes (s.objects.length + 1) data
    ∧ (writeImage sink s wpx hpx data).1.out
      = s.out ++ imageObjBytes (s.objects.length + 1) wpx hpx data
    ∧ streamObjBytes (s.objects.length + 1) data
      = emitObjHeader (s.objects.length + 1)
          ++ emitPrint ("/Length " ++ fmtInt data.length) ++ emitPrint ">>"
          ++ (emitPrint "stream" ++ data ++ emitPrint "endstream")
          ++ emitEndObj :=
  ⟨writeStreamObject_out_ok sink hs s data,
   writeImage_out_ok sink hs s wpx hpx data, rfl⟩

theorem stream_length_exact_witness :
    (writeStreamObject okSink ⟨0, [], [], none, 0, [], 0⟩ [7, 8, 9]).1.out
      = [] ++ streamObjBytes 1 [7, 8, 9] := by
  exact (stream_length_exact okSink (fun _ _ => rfl)
    ⟨0, [], [], none, 0, [], 0⟩ 5 6 [7, 8, 9]).1

/-- Sink whose very first write fails with error 1 and accepts nothing;
every later write succeeds. -/
def badSink0 : Sink := fun i k => if i = 0 then ⟨0, some 1⟩ else ⟨k, none⟩

/-- C2 counterexample: on `badSink0` the header write of `NewPDFWriter`
fails and the writer records error 1; yet `Flush`'s own writes all succeed,
each one overwrites the error field, and `Flush` returns `none` — the
recorded failure is lost, so the error is not sticky and `Flush` does not
return the first error of the document's lifetime. -/
theorem flush_forgets_first_error :
    (initPDF badSink0).err = some 1
      ∧ (Flush badSink0 (initPDF badSink0)).2 = none := by decide

/-- C2 amended: the error field holds only the outcome of the most recent
write: a successful `print` both keeps writing after an earlier failure
(the bytes still reach the sink) and resets the error field to `none`; and
`Flush` returns whatever the error field holds after its own final write,
not the first error encountered. -/
theorem error_last_write_semantics :
    (∀ (sink : Sink) (s : PDFWriter) (str : String), NoFail sink →
        (print sink s str).err = none
          ∧ (print sink s str).out = s.out ++ emitPrint str)
    ∧ (∀ (sink : Sink) (s : PDFWriter),
        (Flush sink s).2 = (Flush sink s).1.err) := by
  constructor
  · intro sink s str hs
    exact ⟨print_err_ok sink hs s str, print_out_ok sink hs s str⟩
  · intro sink s
    simp only [Flush]
    split
    · rfl
    · rfl

theorem error_last_write_semantics_witness :
    (print okSink ⟨0, [], [], some 1, 0, [], 0⟩ "A").err = none :=
  (error_last_write_semantics.1 okSink ⟨0, [], [], some 1, 0, [], 0⟩ "A"
    (fun _ _ => rfl)).1

/-- Sink that accepts the first write in full but fails the second write
(the newline after the header) accepting 0 bytes. -/
def nlFailSink : Sink := fun i k => if i = 1 then ⟨0, some 1⟩ else ⟨k, none⟩

/-- C3 counterexample: when the newline write after `%PDF-1.3` fails with
0 bytes accepted, `print` still increments the cursor, so the cursor is 9
while the sink accepted only 8 bytes — the cursor does not equal the bytes
actually accepted in executions where a sink write fails. -/
theorem cursor_overcounts_failed_newline :
    (initPDF nlFailSink).offset = 9
      ∧ (initPDF nlFailSink).out.length = 8 := by decide

/-- C3 amended: the cursor is monotonically non-decreasing after every
operation on any sink, and in executions where no sink write fails it
equals the total number of bytes the sink has accepted; the equality can
break only when a write fails, because the newline following a successful
payload write is counted as one byte regardless of how many of its bytes
the sink accepted. -/
theorem cursor_monotone_and_tracks :
    (∀ (sink : Sink) (s : PDFWriter) (op : Op) (s' : PDFWriter),
        applyOp sink s op = some s' → s.offset ≤ s'.offset)
    ∧ (∀ (sink : Sink) (s : PDFWriter), s.offset ≤ (Flush sink s).1.offset)
    ∧ (∀ sink : Sink, NoFail sink → ∀ (ops : List Op) (s' : PDFWriter),
        runOps sink (initPDF sink) ops = some s' →
          s'.offset = s'.out.length
            ∧ (Flush sink s').1.offset = (Flush sink s').1.out.length) := by
  refine ⟨?_, Flush_offset_le, ?_⟩
  · intro sink s op s' h
    cases op with
    | info t m =>
        simp only [applyOp] at h
        have h' := Option.some.inj h
        subst h'
        exact WriteInfo_offset_le sink s t m
    | page x y d =>
        obtain ⟨s'', hsome, -, -, hoff⟩ := WritePage_some sink s x y d
        rw [applyOp, hsome] at h
        have h' := Option.some.inj h
        subst h'
        exact hoff
    | jpegPage dx dy d =>
        obtain ⟨s'', hsome, -, -, hoff⟩ := WriteJPEGPage_some sink s dx dy d
        rw [applyOp, hsome] at h
        have h' := Option.some.inj h
        subst h'
        exact hoff
  · intro sink hs ops s' hrun
    have hInv := Inv_runOps sink hs ops (Inv_initPDF sink hs) hrun
    exact ⟨hInv.1, (Inv_Flush sink hs hInv).1⟩

theorem cursor_monotone_and_tracks_witness :
    (initPDF okSink).offset = (initPDF okSink).out.length
      ∧ (Flush okSink (initPDF okSink)).1.offset
          = (Flush okSink (initPDF okSink)).1.out.length :=
  cursor_monotone_and_tracks.2.2 okSink (fun _ _ => rfl) [] (initPDF okSink)
    rfl

/-- C1: in every execution in which no sink write fails, every recorded
object-table entry is the exact byte position at which that object's
header line `"k 0 obj"` begins in the output (`headerAt`), the emitted
cross-reference section over the final table is part of the output, and
each object's 19-byte entry (carrying `pad10` of exactly that recorded
offset) occurs in the output. -/
theorem xref_offsets_exact (sink : Sink) (hs : NoFail sink) (ops : List Op)
    (fin : PDFWriter) (e : Option ℕ)
    (hrun : runDoc sink ops = some (fin, e)) :
    (∀ k, (hk : k < fin.objects.length) →
        headerAt fin.out fin.objects[k] (k + 1))
    ∧ List.IsInfix (xrefBytes fin.objects) fin.out
    ∧ (∀ k, (hk : k < fin.objects.length) →
        List.IsInfix (xrefEntry fin.objects[k]) fin.out) := by
  simp only [runDoc, Option.map_eq_some'] at hrun
  obtain ⟨s1, hops, hflush⟩ := hrun
  have hInv1 : WInv s1 := Inv_runOps sink hs ops (Inv_initPDF sink hs) hops
  have hfin : fin = (Flush sink s1).1 := by rw [hflush]
  have hInvF : WInv fin := by rw [hfin]; exact Inv_Flush sink hs hInv1
  have hobjs : fin.objects
      = s1.objects ++ [s1.offset,
          s1.offset + (pagesObjBytes (s1.objects.length + 1) s1.pages).length] := by
    rw [hfin]
    exact Flush_objects sink hs s1
  have hout : fin.out
      = s1.out ++ flushBytes s1.offset s1.objects s1.pages s1.infoId := by
    rw [hfin]
    exact Flush_out sink hs s1
  have hxb : List.IsInfix (xrefBytes fin.objects) fin.out := by
    rw [hobjs, hout]
    refine ⟨s1.out ++ pagesObjBytes (s1.objects.length + 1) s1.pages
        ++ catalogBytes (s1.objects.length + 1 + 1) (s1.objects.length + 1),
      trailerBytes
        ((s1.objects ++ [s1.offset,
            s1.offset + (pagesObjBytes (s1.objects.length + 1) s1.pages).length]).length + 1)
        s1.infoId (s1.objects.length + 1 + 1)
        (s1.offset + (pagesObjBytes (s1.objects.length + 1) s1.pages).length
           + (catalogBytes (s1.objects.length + 1 + 1) (s1.objects.length + 1)).length),
      ?_⟩
    simp [flushBytes, List.append_assoc]
  refine ⟨fun k hk => (hInvF.2 k hk).2, hxb, ?_⟩
  intro k hk
  exact (xrefEntry_occurs fin.objects fin.objects[k]
    (fin.objects.getElem_mem hk)).trans hxb

theorem xref_offsets_exact_witness :
    List.IsInfix (xrefBytes ((Flush okSink (initPDF okSink)).1.objects))
      ((Flush okSink (initPDF okSink)).1.out) :=
  (xref_offsets_exact okSink (fun _ _ => rfl) []
    (Flush okSink (initPDF okSink)).1 (Flush okSink (initPDF okSink)).2
    rfl).2.1

set_option maxRecDepth 8000 in
/-- C4: the cross-reference entry lines the code emits are 19 bytes long
(18 characters and a single newline), not the 20 bytes of the fixed-format
entries the PDF specification (and the claim) require; shown on the run
with zero pages, where the free entry and the entry for object 1 (recorded
offset 9) both appear in the output with length 19. -/
theorem xref_entries_19_bytes :
    (xrefEntry 9).length = 19
      ∧ (emitPrint "0000000000 65535 f").length = 19
      ∧ List.IsInfix (xrefEntry 9) ((Flush okSink (initPDF okSink)).1.out)
      ∧ List.IsInfix (emitPrint "0000000000 65535 f")
          ((Flush okSink (initPDF okSink)).1.out) := by decide

/-- Sink on which every write fails with error 1, accepting nothing. -/
def allFailSink : Sink := fun _ _ => ⟨0, some 1⟩

/-- C6 counterexample: on a sink where every write fails, `WritePage`
still appends the page identifier 1 to the page list, although not one
byte of the page reached the sink and the error field reports the failure
— an unsuccessfully written page is recorded in the page list, refuting
"every successfully written page's identifier, and only those". -/
theorem page_appended_despite_failure :
    ((WritePage allFailSink (initPDF allFailSink) 612 792 []).map
        (fun r => (r.1.pages, r.1.out, r.1.err, r.2)))
      = some ([1], [], some 1, 1) := by decide

/-- C6 amended: every `WritePage`/`WriteJPEGPage` call that returns
appends its page identifier to the page list in call order regardless of
sink success, and on a no-failure sink the pages-tree object `Flush` emits
lists exactly the page-list identifiers, in order, in `/Kids`, with
`/Count` equal to their number; zero pages yield `/Kids [ ]` and
`/Count 0`. -/
theorem pages_list_and_kids :
    (∀ (sink : Sink) (s : PDFWriter) (x y : ℚ) (d : List ℕ)
        (s' : PDFWriter) (id : ℕ),
        WritePage sink s x y d = some (s', id) →
          s'.pages = s.pages ++ [id])
    ∧ (∀ (sink : Sink) (s : PDFWriter) (dx dy : ℕ) (d : List ℕ)
        (s' : PDFWriter) (id : ℕ),
        WriteJPEGPage sink s dx dy d = some (s', id) →
          s'.pages = s.pages ++ [id])
    ∧ (∀ (sink : Sink) (s : PDFWriter), NoFail sink →
        List.IsInfix (pagesObjBytes (s.objects.length + 1) s.pages)
          ((Flush sink s).1.out))
    ∧ pagesObjBytes 1 []
      = emitObjHeader 1 ++ emitPrint "/Type /Pages" ++ emitPrint "/Kids [ ]"
          ++ emitPrint "/Count 0" ++ emitEndObj := by
  refine ⟨?_, ?_, ?_, by decide⟩
  · intro sink s x y d s' id h
    obtain ⟨s'', hsome, hpages, -, -⟩ := WritePage_some sink s x y d
    rw [hsome] at h
    have h' := Option.some.inj h
    rw [Prod.ext_iff] at h'
    obtain ⟨h1, h2⟩ := h'
    dsimp at h1 h2
    subst h1
    subst h2
    exact hpages
  · intro sink s dx dy d s' id h
    obtain ⟨s'', hsome, hpages, -, -⟩ := WriteJPEGPage_some sink s dx dy d
    rw [hsome] at h
    have h' := Option.some.inj h
    rw [Prod.ext_iff] at h'
    obtain ⟨h1, h2⟩ := h'
    dsimp at h1 h2
    subst h1
    subst h2
    exact hpages
  · intro sink s hs
    refine ⟨s.out,
      catalogBytes (s.objects.length + 1 + 1) (s.objects.length + 1)
        ++ xrefBytes (s.objects ++ [s.offset,
            s.offset + (pagesObjBytes (s.objects.length + 1) s.pages).length])
        ++ trailerBytes
            ((s.objects ++ [s.offset,
                s.offset + (pagesObjBytes (s.objects.length + 1) s.pages).length]).length + 1)
            s.infoId (s.objects.length + 1 + 1)
            (s.offset + (pagesObjBytes (s.objects.length + 1) s.pages).length
               + (catalogBytes (s.objects.length + 1 + 1) (s.objects.length + 1)).length),
      ?_⟩
    rw [Flush_out sink hs]
    simp [flushBytes, List.append_assoc]

theorem pages_list_and_kids_witness :
    List.IsInfix (pagesObjBytes 1 [])
      ((Flush okSink (initPDF okSink)).1.out) :=
  pages_list_and_kids.2.2.1 okSink (initPDF okSink) (fun _ _ => rfl)

set_option maxRecDepth 8000 in
/-- C7 counterexample: in a run with no `WriteInfo` call at all (zero
operations, no-failure sink) the trailer still contains the line
`/Info 0 0 R` — a reference to object number 0, which does not exist (the
table is 1-based and entry 0 is the free-list head) — refuting "no /Info
reference to a nonexistent object appears". -/
theorem info_ref_emitted_without_writeinfo :
    List.IsInfix (emitPrint "/Info 0 0 R")
      ((Flush okSink (initPDF okSink)).1.out) := by decide

/-- C7 amended: the trailer emitted by `Flush` always contains an `/Info`
reference, to `infoId`: the metadata object's identifier when `WriteInfo`
was called before finalizing (it sets `infoId` to the freshly allocated
id), and the initial value 0 — a nonexistent object — when it was not
(page-writing operations never touch `infoId`). -/
theorem trailer_always_refs_info :
    (∀ (sink : Sink) (s : PDFWriter), NoFail sink →
        List.IsInfix (emitPrint ("/Info " ++ fmtInt s.infoId ++ " 0 R"))
          ((Flush sink s).1.out))
    ∧ (∀ (sink : Sink) (s : PDFWriter) (t m : String),
        (WriteInfo sink s t m).infoId = s.objects.length + 1)
    ∧ (∀ sink : Sink, (initPDF sink).infoId = 0)
    ∧ (∀ (sink : Sink) (s : PDFWriter) (x y : ℚ) (d : List ℕ)
        (s' : PDFWriter) (id : ℕ),
        WritePage sink s x y d = some (s', id) → s'.infoId = s.infoId)
    ∧ (∀ (sink : Sink) (s : PDFWriter) (dx dy : ℕ) (d : List ℕ)
        (s' : PDFWriter) (id : ℕ),
        WriteJPEGPage sink s dx dy d = some (s', id) →
          s'.infoId = s.infoId) := by
  refine ⟨?_, WriteInfo_infoId, ?_, ?_, ?_⟩
  · intro sink s hs
    refine ⟨s.out ++ pagesObjBytes (s.objects.length + 1) s.pages
        ++ catalogBytes (s.objects.length + 1 + 1) (s.objects.length + 1)
        ++ xrefBytes (s.objects ++ [s.offset,
            s.offset + (pagesObjBytes (s.objects.length + 1) s.pages).length])
        ++ emitPrint "trailer" ++ emitPrint "<<"
        ++ emitPrint ("/Size "
            ++ fmtInt ((s.objects ++ [s.offset,
                s.offset + (pagesObjBytes (s.objects.length + 1) s.pages).length]).length + 1)),
      emitPrint ("/Root " ++ fmtInt (s.objects.length + 1 + 1) ++ " 0 R")
        ++ emitPrint "/ID [<deadbeef> <deadbeef>]" ++ emitPrint ">>"
        ++ emitPrint "startxref"
        ++ emitPrint (fmtInt
            (s.offset + (pagesObjBytes (s.objects.length + 1) s.pages).length
               + (catalogBytes (s.objects.length + 1 + 1) (s.objects.length + 1)).length))
        ++ emitPrint "%%EOF",
      ?_⟩
    rw [Flush_out sink hs]
    simp [flushBytes, trailerBytes, List.append_assoc]
  · intro sink
    simp only [initPDF, NewPDFWriter]
    exact print_infoId sink ⟨0, [], [], none, 0, [], 0⟩ "%PDF-1.3"
  · intro sink s x y d s' id h
    obtain ⟨s'', hsome, -, hinfo, -⟩ := WritePage_some sink s x y d
    rw [hsome] at h
    have h' := Option.some.inj h
    rw [Prod.ext_iff] at h'
    obtain ⟨h1, h2⟩ := h'
    dsimp at h1
    subst h1
    exact hinfo
  · intro sink s dx dy d s' id h
    obtain ⟨s'', hsome, -, hinfo, -⟩ := WriteJPEGPage_some sink s dx dy d
    rw [hsome] at h
    have h' := Option.some.inj h
    rw [Prod.ext_iff] at h'
    obtain ⟨h1, h2⟩ := h'
    dsimp at h1
    subst h1
    exact hinfo

theorem trailer_always_refs_info_witness :
    List.IsInfix
      (emitPrint ("/Info " ++ fmtInt (initPDF okSink).infoId ++ " 0 R"))
      ((Flush okSink (initPDF okSink)).1.out) :=
  trailer_always_refs_info.1 okSink (initPDF okSink) (fun _ _ => rfl)

/-- C9: `WriteJPEGPage` derives the MediaBox (and CropBox) from the pixel
dimensions at the fixed 150 DPI (`points = pixels / 150 * 72`), and in
particular a 1500×1050-pixel image yields the emitted line
`/MediaBox [0 0 720.00 504.00]`; both scale factors are exact
(`1500/150*72 = 720`, `1050/150*72 = 504`, also exact in `float64`). -/
theorem jpeg_mediabox_150dpi (sink : Sink) (hs : NoFail sink)
    (s : PDFWriter) (data : List ℕ) :
    (∃ s', WriteJPEGPage sink s 1500 1050 data
        = some (s', s.objects.length + 1)
      ∧ List.IsInfix (emitPrint "/MediaBox [0 0 720.00 504.00]") s'.out)
    ∧ fmtF2 ((1500 : ℚ) / 150 * 72) = "720.00"
    ∧ fmtF2 ((1050 : ℚ) / 150 * 72) = "504.00" := by
  have hq720 : ((1500 : ℕ) : ℚ) / 150 * 72 = 720 := by norm_num
  have hq504 : ((1050 : ℕ) : ℚ) / 150 * 72 = 504 := by norm_num
  have hf720 : fmtF2 (720 : ℚ) = "720.00" := by
    unfold fmtF2
    rw [show ((720 : ℚ) * 100) = 72000 by norm_num]
    rw [Rat.num_ofNat, Rat.den_ofNat]
    decide
  have hf504 : fmtF2 (504 : ℚ) = "504.00" := by
    unfold fmtF2
    rw [show ((504 : ℚ) * 100) = 50400 by norm_num]
    rw [Rat.num_ofNat, Rat.den_ofNat]
    decide
  refine ⟨?_, by rw [show ((1500 : ℚ) / 150 * 72) = 720 by norm_num]; exact hf720,
    by rw [show ((1050 : ℚ) / 150 * 72) = 504 by norm_num]; exact hf504⟩
  obtain ⟨s', hsome, hout⟩ := WriteJPEGPage_out_ok sink hs s 1500 1050 data
  rw [hq720, hq504] at hout
  have hpiece : emitPrint ("/MediaBox [0 0 " ++ fmtF2 720 ++ " "
        ++ fmtF2 504 ++ "]")
      = emitPrint "/MediaBox [0 0 720.00 504.00]" := by
    rw [hf720, hf504]
    decide
  refine ⟨s', hsome, ?_⟩
  rw [← hpiece]
  refine ⟨s.out ++ emitObjHeader (s.objects.length + 1)
      ++ emitPrint "/Type /Page",
    emitPrint ("/CropBox [0 0 " ++ fmtF2 720 ++ " " ++ fmtF2 504 ++ "]")
      ++ emitPrint ("/Contents " ++ fmtInt (s.objects.length + 1 + 1) ++ " 0 R")
      ++ emitPrint ("/Resources << /XObject << /I "
          ++ fmtInt (s.objects.length + 1 + 2) ++ " 0 R >> >>")
      ++ emitEndObj
      ++ streamObjBytes (s.objects.length + 1 + 1)
          (strBytes ("q\n" ++ fmtF2 720 ++ " 0 0 " ++ fmtF2 504
            ++ " 0 0 cm\n" ++ "/I Do\n" ++ "Q\n"))
      ++ imageObjBytes (s.objects.length + 1 + 1 + 1) 1500 1050 data,
    ?_⟩
  rw [hout]
  simp [jpegPageObjBytes, List.append_assoc]

theorem jpeg_mediabox_150dpi_witness :
    fmtF2 ((1500 : ℚ) / 150 * 72) = "720.00"
      ∧ fmtF2 ((1050 : ℚ) / 150 * 72) = "504.00" :=
  ⟨(jpeg_mediabox_150dpi okSink (fun _ _ => rfl) (initPDF okSink) []).2.1,
   (jpeg_mediabox_150dpi okSink (fun _ _ => rfl) (initPDF okSink) []).2.2⟩
